import Mathlib

/-!
Shallow embedding of the order-placement workflow of the mvp-ecommerse
backend (src/controllers/orderController.js, src/controllers/cartController.js,
src/models/Product.js).

Numbers that the JavaScript source stores in Mongo `Number` fields are
modelled as exact rationals (prices) and integers (stock); quantities are
naturals.  Stock is an integer, not a natural, because the source mutates it
with an unguarded `$inc` which can drive it negative.  The database is a
record of lists; `findOne`/`findById` become `List.find?`, `populate` becomes
an explicit lookup against the product list, and each controller becomes a
pure function from a database value (plus request data) to a result and a
new database value.
-/

namespace MvpEcommerce

/-- A product document (src/models/Product.js).  `id` stands for Mongo's
`_id`.  Fields the checkout pipeline never reads are omitted. -/
structure Product where
  id : Nat
  name : String
  price : ℚ
  stock : ℤ
  isActive : Bool
  images : List String
  deriving DecidableEq, Repr

/-- A cart line item: product reference, quantity, and the price stored in
the cart (src/controllers/cartController.js `items` entries). -/
structure CartItem where
  product : Nat
  quantity : ℕ
  price : ℚ
  deriving DecidableEq, Repr

/-- A cart document: owned by one user, holding line items. -/
structure Cart where
  id : Nat
  user : Nat
  items : List CartItem
  deriving DecidableEq, Repr

/-- A denormalized order line, as built by `createOrder`
(orderController.js lines 47-53). -/
structure OrderItem where
  product : Nat
  name : String
  quantity : ℕ
  price : ℚ
  image : String
  deriving DecidableEq, Repr

/-- Order status values (orderController.js `validStatuses`). -/
inductive OrderStatus where
  | pending
  | processing
  | shipped
  | delivered
  | cancelled
  deriving DecidableEq, Repr

/-- An order document.  Modelled from the spec: the Order schema file itself
is not among the sources, so the field set is taken from the `Order.create`
call in orderController.js lines 62-71 and the spec's data model (initial
status `pending`, isPaid/isDelivered default false). -/
structure Order where
  id : Nat
  user : Nat
  orderItems : List OrderItem
  shippingAddress : String
  paymentMethod : String
  itemsPrice : ℚ
  taxPrice : ℚ
  shippingPrice : ℚ
  totalPrice : ℚ
  status : OrderStatus
  isPaid : Bool
  isDelivered : Bool
  deriving DecidableEq, Repr

/-- The persisted state the checkout pipeline touches. -/
structure DB where
  products : List Product
  carts : List Cart
  orders : List Order
  deriving DecidableEq, Repr

/-- `Product.findById` (and the product half of `populate`). -/
def findProduct (db : DB) (pid : Nat) : Option Product :=
  db.products.find? (fun p => p.id == pid)

/-- `Cart.findOne ( user: userId )`. -/
def findCartByUser (db : DB) (userId : Nat) : Option Cart :=
  db.carts.find? (fun c => c.user == userId)

/-- `cart.save()` after mutating `cart.items`: writes the given item list
back to the cart document with the given id. -/
def saveCartItems (db : DB) (cartId : Nat) (items : List CartItem) : DB :=
  { db with carts := db.carts.map fun c =>
      if c.id = cartId then { c with items := items } else c }

/-- `Product.findByIdAndUpdate(id, ( $inc: ( stock: -quantity ) ))`
(orderController.js lines 75-78): an unguarded decrement of the stored
stock, with no lower bound. -/
def incStock (db : DB) (pid : Nat) (quantity : ℕ) : DB :=
  { db with products := db.products.map fun p =>
      if p.id = pid then { p with stock := p.stock - (quantity : ℤ) } else p }

/-- The stock-update loop of `createOrder` (orderController.js lines 74-79). -/
def decrementStocks (db : DB) (items : List CartItem) : DB :=
  items.foldl (fun d it => incStock d it.product it.quantity) db

/-- Checkout failures surfaced by `createOrder` as 400 responses. -/
inductive OrderError where
  | emptyCart
  | productUnavailable (name : String)
  | insufficientStock (name : String) (available : ℤ)
  deriving DecidableEq, Repr

/-- Result of a checkout attempt. -/
inductive CreateOrderResult where
  | failed (e : OrderError)
  | created (o : Order)
  deriving DecidableEq, Repr

/-- `taxPrice = totalPrice * 0.1` (orderController.js line 57). -/
def taxPriceOf (subtotal : ℚ) : ℚ :=
  subtotal * (1 / 10)

/-- `shippingPrice = totalPrice > 100 ? 0 : 10` (orderController.js line 58). -/
def shippingPriceOf (subtotal : ℚ) : ℚ :=
  if subtotal > 100 then 0 else 10

/-- The validation loop of `createOrder` (orderController.js lines 27-54):
walks the cart items in order against the populated product snapshot,
failing at the first missing/inactive product or insufficient stock, and
otherwise accumulating the denormalized order lines and the items subtotal.
The product named in the missing-product error is the literal `Unknown`, as
in the source's template string. -/
def validateItems (lookup : Nat → Option Product) :
    List CartItem → Except OrderError (List OrderItem × ℚ)
  | [] => .ok ([], 0)
  | it :: rest =>
    match lookup it.product with
    | none => .error (.productUnavailable "Unknown")
    | some p =>
      if !p.isActive then
        .error (.productUnavailable p.name)
      else if p.stock < (it.quantity : ℤ) then
        .error (.insufficientStock p.name p.stock)
      else
        match validateItems lookup rest with
        | .error e => .error e
        | .ok (ois, total) =>
          .ok ({ product := p.id, name := p.name, quantity := it.quantity,
                 price := it.price, image := p.images.headD "" } :: ois,
               it.price * (it.quantity : ℚ) + total)

/-- A fresh Mongo-style id for a document appended to a list. -/
def freshId (ids : List Nat) : Nat :=
  ids.foldr max 0 + 1

/-- `createOrder` (orderController.js lines 9-94): load the user's cart with
products populated; reject an absent or empty cart; validate every line and
price the order; persist the order; decrement each line's product stock with
an unguarded `$inc`; clear the cart. -/
def createOrder (db : DB) (userId : Nat)
    (shippingAddress paymentMethod : String) : CreateOrderResult × DB :=
  match findCartByUser db userId with
  | none => (.failed .emptyCart, db)
  | some cart =>
    if cart.items.isEmpty then
      (.failed .emptyCart, db)
    else
      match validateItems (findProduct db) cart.items with
      | .error e => (.failed e, db)
      | .ok (orderItems, itemsPrice) =>
        let taxPrice := taxPriceOf itemsPrice
        let shippingPrice := shippingPriceOf itemsPrice
        let finalTotal := itemsPrice + taxPrice + shippingPrice
        let order : Order :=
          { id := freshId (db.orders.map Order.id)
            user := userId
            orderItems := orderItems
            shippingAddress := shippingAddress
            paymentMethod := paymentMethod
            itemsPrice := itemsPrice
            taxPrice := taxPrice
            shippingPrice := shippingPrice
            totalPrice := finalTotal
            status := .pending
            isPaid := false
            isDelivered := false }
        let db1 := { db with orders := db.orders ++ [order] }
        let db2 := decrementStocks db1 cart.items
        let db3 := saveCartItems db2 cart.id []
        (.created order, db3)

/-- The item-validity test of `getCart` (cartController.js lines 17-21):
keep a line only if its populated product exists (`item.product`), has
positive stock, and has stock at least the line's quantity.  The `isActive`
flag is not consulted here. -/
def validItemB (lookup : Nat → Option Product) (it : CartItem) : Bool :=
  match lookup it.product with
  | none => false
  | some p => decide (0 < p.stock) && decide ((it.quantity : ℤ) ≤ p.stock)

/-- `getCart` (cartController.js lines 8-32): load (or lazily create) the
user's cart, drop the lines that fail `validItemB` against current product
data, persist the pruned cart when anything was dropped, and return the
(possibly pruned) cart. -/
def getCart (db : DB) (userId : Nat) : Cart × DB :=
  match findCartByUser db userId with
  | none =>
    let c : Cart := { id := freshId (db.carts.map Cart.id), user := userId, items := [] }
    (c, { db with carts := db.carts ++ [c] })
  | some cart =>
    let validItems := cart.items.filter (validItemB (findProduct db))
    if validItems.length ≠ cart.items.length then
      ({ cart with items := validItems }, saveCartItems db cart.id validItems)
    else
      (cart, db)

/-- Cart-operation failures surfaced as 4xx responses in cartController.js. -/
inductive CartError where
  | productNotFound
  | notEnoughStock (available : ℤ)
  | cartNotFound
  | itemNotFound
  deriving DecidableEq, Repr

/-- The merge-or-push step of `addToCart` (cartController.js lines 67-92):
if a line for the product exists, grow its quantity (bounded by stock) and
refresh its stored price to the product's current price; otherwise append a
new line priced at the product's current price. -/
def addLine (items : List CartItem) (productId : Nat) (quantity : ℕ)
    (stock : ℤ) (price : ℚ) : Except CartError (List CartItem) :=
  match items with
  | [] => .ok [{ product := productId, quantity := quantity, price := price }]
  | it :: rest =>
    if it.product = productId then
      let newQuantity := it.quantity + quantity
      if (newQuantity : ℤ) > stock then
        .error (.notEnoughStock stock)
      else
        .ok ({ it with quantity := newQuantity, price := price } :: rest)
    else
      match addLine rest productId quantity stock price with
      | .error e => .error e
      | .ok rest2 => .ok (it :: rest2)

/-- `addToCart` (cartController.js lines 37-104): look up the product
(rejecting missing or inactive ones and insufficient stock), find or create
the cart, then merge or append the line via `addLine`. -/
def addToCart (db : DB) (userId productId : Nat) (quantity : ℕ) :
    Except CartError DB :=
  match findProduct db productId with
  | none => .error .productNotFound
  | some product =>
    if !product.isActive then
      .error .productNotFound
    else if product.stock < (quantity : ℤ) then
      .error (.notEnoughStock product.stock)
    else
      let (cart, db1) :=
        match findCartByUser db userId with
        | some c => (c, db)
        | none =>
          let c : Cart := { id := freshId (db.carts.map Cart.id), user := userId, items := [] }
          (c, { db with carts := db.carts ++ [c] })
      match addLine cart.items productId quantity product.stock product.price with
      | .error e => .error e
      | .ok items2 => .ok (saveCartItems db1 cart.id items2)

/-- In-place update of the `i`-th cart line, as `cart.items[itemIndex]`
mutation in cartController.js. -/
def updateAt (l : List CartItem) (i : Nat) (f : CartItem → CartItem) : List CartItem :=
  match l, i with
  | [], _ => []
  | x :: xs, 0 => f x :: xs
  | x :: xs, n + 1 => x :: updateAt xs n f

/-- `updateCartItem` (cartController.js lines 109-154): find the cart and
the line, check the product's current stock against the new quantity, then
overwrite the line's quantity and overwrite its price with the product's
current price. -/
def updateCartItem (db : DB) (userId productId : Nat) (quantity : ℕ) :
    Except CartError DB :=
  match findCartByUser db userId with
  | none => .error .cartNotFound
  | some cart =>
    match cart.items.findIdx? (fun it => it.product == productId) with
    | none => .error .itemNotFound
    | some i =>
      match findProduct db productId with
      | none => .error (.notEnoughStock 0)
      | some product =>
        if product.stock < (quantity : ℤ) then
          .error (.notEnoughStock product.stock)
        else
          .ok (saveCartItems db cart.id
            (updateAt cart.items i fun it =>
              { it with quantity := quantity, price := product.price }))

/-- Status/payment/delivery update failures (4xx responses in
orderController.js). -/
inductive UpdateError where
  | invalidStatus
  | alreadyPaid
  | alreadyDelivered
  deriving DecidableEq, Repr

/-- The `validStatuses` membership check of `updateOrderStatus`
(orderController.js line 273), parsing the request string. -/
def parseStatus (s : String) : Option OrderStatus :=
  if s = "pending" then some .pending
  else if s = "processing" then some .processing
  else if s = "shipped" then some .shipped
  else if s = "delivered" then some .delivered
  else if s = "cancelled" then some .cancelled
  else none

/-- `updateOrderStatus` (orderController.js lines 271-306): after validating
the status string, set `order.status` unconditionally — the current status
is never inspected — and set the delivery pair when the new status is
`delivered`. -/
def updateOrderStatus (o : Order) (s : String) : Except UpdateError Order :=
  match parseStatus s with
  | none => .error .invalidStatus
  | some st =>
    let o1 := { o with status := st }
    let o2 := if st = .delivered then { o1 with isDelivered := true } else o1
    .ok o2

/-- `updateOrderToPaid` (orderController.js lines 157-197): reject an
already-paid order, otherwise mark it paid and move it to `processing`.
The current status field itself is never inspected. -/
def updateOrderToPaid (o : Order) : Except UpdateError Order :=
  if o.isPaid then
    .error .alreadyPaid
  else
    .ok { o with isPaid := true, status := .processing }

/-- `updateOrderToDelivered` (orderController.js lines 202-230): reject an
already-delivered order, otherwise mark it delivered and move it to
`delivered`. -/
def updateOrderToDelivered (o : Order) : Except UpdateError Order :=
  if o.isDelivered then
    .error .alreadyDelivered
  else
    .ok { o with isDelivered := true, status := .delivered }

/-- The cart items the database currently stores for a user (empty when no
cart exists). -/
def cartItemsOf (db : DB) (userId : Nat) : List CartItem :=
  ((findCartByUser db userId).map Cart.items).getD []

/-- The stored stock of a product, when it exists. -/
def stockOf (db : DB) (pid : Nat) : Option ℤ :=
  (findProduct db pid).map Product.stock

/-- A cart line is bad for checkout when its product is missing, inactive,
or short of stock (the three rejection tests of orderController.js lines
30-42). -/
def badItemB (lookup : Nat → Option Product) (it : CartItem) : Bool :=
  match lookup it.product with
  | none => true
  | some p => !p.isActive || decide (p.stock < (it.quantity : ℤ))

/-- The error `createOrder`'s validation loop raises for a given line, when
it raises one. -/
def itemError (lookup : Nat → Option Product) (it : CartItem) : Option OrderError :=
  match lookup it.product with
  | none => some (.productUnavailable "Unknown")
  | some p =>
    if !p.isActive then some (.productUnavailable p.name)
    else if p.stock < (it.quantity : ℤ) then some (.insufficientStock p.name p.stock)
    else none

/-- Keep-condition on a cart line taken verbatim from the claim wording for
`getCart`: the line survives unless its product is missing, has zero stock,
or has stock strictly below the line's quantity. -/
def claimKeepB (lookup : Nat → Option Product) (it : CartItem) : Bool :=
  match lookup it.product with
  | none => false
  | some p => !(p.stock == 0) && !(decide (p.stock < (it.quantity : ℤ)))

/-- Conditional stock decrement as the claim describes it: decrement by `q`
only when the current stock is at least `q`, fail otherwise. -/
def condDecStock (stock : ℤ) (q : ℕ) : Option ℤ :=
  if (q : ℤ) ≤ stock then some (stock - (q : ℤ)) else none

/-- A rational carries at most two decimal digits of precision when
multiplying it by 100 lands on an integer. -/
def twoDecimal (q : ℚ) : Prop :=
  ∃ n : ℤ, q * 100 = (n : ℚ)

/-- The all-zero price edit, used to witness that checkout ignores current
product prices. -/
def zeroPrice : Nat → ℚ :=
  fun _ => 0

/-- Rewrite every product's price (and nothing else) — the shape of a
product-price edit, used to state that checkout ignores current prices. -/
def repriceDB (db : DB) (f : Nat → ℚ) : DB :=
  { db with products := db.products.map fun p => { p with price := f p.id } }

/-- Product with one unit of stock, used to exercise the unguarded stock
decrement. -/
def exProduct1 : Product :=
  { id := 1, name := "widget", price := 10, stock := 1, isActive := true,
    images := ["img"] }

/-- A database whose single cart holds two lines for the same product: both
lines pass validation against the populated snapshot (stock 1 ≥ 1), yet the
two unguarded decrements drive the stock to −1. -/
def exDB1 : DB :=
  { products := [exProduct1]
    carts := [{ id := 1, user := 1,
                items := [{ product := 1, quantity := 1, price := 10 },
                          { product := 1, quantity := 1, price := 10 }] }]
    orders := [] }

/-- Cart holding one line for an inactive product. -/
def exCart2 : Cart :=
  { id := 1, user := 1, items := [{ product := 1, quantity := 1, price := 5 }] }

/-- Database with an inactive product referenced by a cart line. -/
def exDB2 : DB :=
  { products := [{ id := 1, name := "gadget", price := 5, stock := 9,
                   isActive := false, images := [] }]
    carts := [exCart2]
    orders := [] }

/-- Database realizing the spec's worked pricing example: one line of price
50 and quantity 2. -/
def exDB4 : DB :=
  { products := [{ id := 1, name := "widget", price := 50, stock := 5,
                   isActive := true, images := ["img"] }]
    carts := [{ id := 1, user := 1,
                items := [{ product := 1, quantity := 2, price := 50 }] }]
    orders := [] }

/-- The order `createOrder` produces from `exDB4`: the spec's worked
example, with itemsPrice 100, tax 10, shipping 10, total 120. -/
def exOrder4 : Order :=
  { id := 1, user := 1,
    orderItems := [{ product := 1, name := "widget", quantity := 2,
                     price := 50, image := "img" }]
    shippingAddress := "addr", paymentMethod := "cod",
    itemsPrice := 100, taxPrice := 10, shippingPrice := 10, totalPrice := 120,
    status := .pending, isPaid := false, isDelivered := false }

/-- The database state after the `exDB4` checkout: stock decremented from 5
to 3, cart emptied, order appended. -/
def exDB4' : DB :=
  { products := [{ id := 1, name := "widget", price := 50, stock := 3,
                   isActive := true, images := ["img"] }]
    carts := [{ id := 1, user := 1, items := [] }]
    orders := [exOrder4] }

/-- Cart holding one line priced 50 at add time. -/
def exCart5 : Cart :=
  { id := 1, user := 1, items := [{ product := 1, quantity := 1, price := 50 }] }

/-- Database where the cart holds a line priced 50 while the product's
current price is 60. -/
def exDB5 : DB :=
  { products := [{ id := 1, name := "widget", price := 60, stock := 10,
                   isActive := true, images := [] }]
    carts := [exCart5]
    orders := [] }

/-- `exDB5` after `updateCartItem` raises the line's quantity to 2: the
line's stored price has been overwritten with the product's current 60. -/
def exDB5' : DB :=
  { products := [{ id := 1, name := "widget", price := 60, stock := 10,
                   isActive := true, images := [] }]
    carts := [{ id := 1, user := 1,
                items := [{ product := 1, quantity := 2, price := 60 }] }]
    orders := [] }

/-- Database with one empty cart. -/
def exDB6 : DB :=
  { products := []
    carts := [{ id := 1, user := 1, items := [] }]
    orders := [] }

/-- Database whose single line subtotals to 19.99, so the 10% tax is 1.999:
three decimal digits. -/
def exDB9 : DB :=
  { products := [{ id := 1, name := "widget", price := 1999 / 100, stock := 5,
                   isActive := true, images := [] }]
    carts := [{ id := 1, user := 1,
                items := [{ product := 1, quantity := 1, price := 1999 / 100 }] }]
    orders := [] }

/-- The order the `exDB9` checkout produces: its taxPrice 1.999 carries
three decimal digits because the source rounds nowhere. -/
def exOrder9 : Order :=
  { id := 1, user := 1,
    orderItems := [{ product := 1, name := "widget", quantity := 1,
                     price := 1999 / 100, image := "" }]
    shippingAddress := "addr", paymentMethod := "cod",
    itemsPrice := 1999 / 100, taxPrice := 1999 / 1000, shippingPrice := 10,
    totalPrice := 31989 / 1000,
    status := .pending, isPaid := false, isDelivered := false }

/-- The database state after the `exDB9` checkout. -/
def exDB9' : DB :=
  { products := [{ id := 1, name := "widget", price := 1999 / 100, stock := 4,
                   isActive := true, images := [] }]
    carts := [{ id := 1, user := 1, items := [] }]
    orders := [exOrder9] }

/-- Database exercising `getCart` pruning: product 1 in stock, product 2 out
of stock, product 3 short of the requested quantity, product 4 missing. -/
def exDB10 : DB :=
  { products := [{ id := 1, name := "a", price := 1, stock := 5,
                   isActive := true, images := [] },
                 { id := 2, name := "b", price := 1, stock := 0,
                   isActive := true, images := [] },
                 { id := 3, name := "c", price := 1, stock := 2,
                   isActive := true, images := [] }]
    carts := [{ id := 1, user := 1,
                items := [{ product := 1, quantity := 2, price := 1 },
                          { product := 2, quantity := 1, price := 1 },
                          { product := 3, quantity := 3, price := 1 },
                          { product := 4, quantity := 1, price := 1 }] }]
    orders := [] }

/-- A delivered (paid) order. -/
def exOrder8 : Order :=
  { id := 1, user := 1, orderItems := [], shippingAddress := "a",
    paymentMethod := "cod", itemsPrice := 0, taxPrice := 0,
    shippingPrice := 10, totalPrice := 10, status := .delivered,
    isPaid := true, isDelivered := true }

/-- Whether a checkout attempt produced an order. -/
def CreateOrderResult.isCreated : CreateOrderResult → Bool
  | .created _ => true
  | .failed _ => false

/-! ## Helper lemmas -/

/-- `find?` on a user key commutes with a map that preserves the user field. -/
theorem find?_user_map (l : List Cart) (f : Cart → Cart)
    (hf : ∀ c, (f c).user = c.user) (u : Nat) :
    (l.map f).find? (fun c => c.user == u) =
      (l.find? (fun c => c.user == u)).map f := by
  induction l with
  | nil => rfl
  | cons c rest ih =>
    show List.find? _ (f c :: rest.map f) = _
    by_cases h : (c.user == u) = true
    · have hfc : ((f c).user == u) = true := by rw [hf]; exact h
      simp [List.find?, h, hfc]
    · have hfc : ((f c).user == u) = false := by
        rw [hf]; exact Bool.of_not_eq_true h
      simp [List.find?, Bool.of_not_eq_true h, hfc, ih]

/-- `find?` over an append looks at the second part only when the first has
no match. -/
theorem find?_append_none {α : Type} (p : α → Bool) (l₁ l₂ : List α)
    (h : l₁.find? p = none) : (l₁ ++ l₂).find? p = l₂.find? p := by
  induction l₁ with
  | nil => rfl
  | cons a rest ih =>
    by_cases ha : p a = true
    · simp [List.find?, ha] at h
    · have ha' : p a = false := Bool.of_not_eq_true ha
      simp only [List.find?, ha'] at h
      simp only [List.cons_append, List.find?, ha']
      exact ih h

/-- A filter that drops nothing (same length) returns the list unchanged. -/
theorem filter_eq_self_of_length {α : Type} (p : α → Bool) (l : List α)
    (h : (l.filter p).length = l.length) : l.filter p = l := by
  induction l with
  | nil => rfl
  | cons a rest ih =>
    by_cases ha : p a = true
    · simp only [List.filter_cons_of_pos ha, List.length_cons] at h
      rw [List.filter_cons_of_pos ha, ih (by omega)]
    · have ha' : p a = false := Bool.of_not_eq_true ha
      exfalso
      have hle := List.length_filter_le p rest
      rw [List.filter_cons_of_neg (by simp [ha']), List.length_cons] at h
      omega

/-- The stock-decrement loop never touches the cart collection. -/
theorem decrementStocks_carts (items : List CartItem) :
    ∀ db : DB, (decrementStocks db items).carts = db.carts := by
  induction items with
  | nil => intro db; rfl
  | cons it rest ih =>
    intro db
    show (decrementStocks (incStock db it.product it.quantity) rest).carts = _
    rw [ih]
    rfl

/-- The stock-decrement loop never touches the order collection. -/
theorem decrementStocks_orders (items : List CartItem) :
    ∀ db : DB, (decrementStocks db items).orders = db.orders := by
  induction items with
  | nil => intro db; rfl
  | cons it rest ih =>
    intro db
    show (decrementStocks (incStock db it.product it.quantity) rest).orders = _
    rw [ih]
    rfl

/-- The claim-worded keep condition for `getCart` coincides with the
source's filter. -/
theorem claimKeepB_eq_validItemB (lookup : Nat → Option Product) (it : CartItem) :
    claimKeepB lookup it = validItemB lookup it := by
  unfold claimKeepB validItemB
  cases h : lookup it.product with
  | none => rfl
  | some p =>
    rw [Bool.eq_iff_iff]
    simp only [Bool.and_eq_true, Bool.not_eq_true', decide_eq_false_iff_not,
      decide_eq_true_eq, beq_eq_false_iff_ne, ne_eq]
    constructor
    · rintro ⟨h0, hlt⟩
      exact ⟨by omega, by omega⟩
    · rintro ⟨h0, hle⟩
      exact ⟨by omega, by omega⟩

/-- When the validation loop succeeds, the subtotal it returns is the sum of
cart-line price × quantity, which is also the sum over the produced
denormalized order lines. -/
theorem validateItems_ok_sums (lookup : Nat → Option Product) :
    ∀ (items : List CartItem) (ois : List OrderItem) (total : ℚ),
      validateItems lookup items = .ok (ois, total) →
      total = (items.map (fun it => it.price * (it.quantity : ℚ))).sum ∧
      total = (ois.map (fun oi => oi.price * (oi.quantity : ℚ))).sum := by
  intro items
  induction items with
  | nil =>
    intro ois total h
    simp only [validateItems, Except.ok.injEq, Prod.mk.injEq] at h
    obtain ⟨h1, h2⟩ := h
    subst h1; subst h2
    simp
  | cons it rest ih =>
    intro ois total h
    cases hl : lookup it.product with
    | none => simp only [validateItems, hl] at h; cases h
    | some p =>
      simp only [validateItems, hl] at h
      by_cases hact : p.isActive
      · rw [if_neg (by simp [hact])] at h
        by_cases hstock : p.stock < (it.quantity : ℤ)
        · rw [if_pos hstock] at h; cases h
        · rw [if_neg hstock] at h
          cases hrec : validateItems lookup rest with
          | error e => rw [hrec] at h; cases h
          | ok pr =>
            obtain ⟨ois', total'⟩ := pr
            rw [hrec] at h
            simp only [Except.ok.injEq, Prod.mk.injEq] at h
            obtain ⟨h1, h2⟩ := h
            obtain ⟨hsum1, hsum2⟩ := ih ois' total' hrec
            subst h1; subst h2
            constructor
            · simp [hsum1]
            · simp [hsum2]
      · rw [if_pos (by simp [hact])] at h; cases h

/-- If some cart line is bad (missing, inactive, or short-stocked product),
the validation loop fails, and with the error the source raises for one of
the bad lines. -/
theorem validateItems_error_of_bad (lookup : Nat → Option Product) :
    ∀ items : List CartItem,
      (∃ it ∈ items, badItemB lookup it = true) →
      ∃ e, validateItems lookup items = .error e ∧
        ∃ it ∈ items, itemError lookup it = some e := by
  intro items
  induction items with
  | nil => rintro ⟨it, hmem, _⟩; cases hmem
  | cons it rest ih =>
    rintro ⟨bad, hmem, hbad⟩
    cases hl : lookup it.product with
    | none =>
      refine ⟨.productUnavailable "Unknown", ?_, it, List.mem_cons_self it rest, ?_⟩
      · simp only [validateItems, hl]
      · simp only [itemError, hl]
    | some p =>
      by_cases hact : p.isActive
      · by_cases hstock : p.stock < (it.quantity : ℤ)
        · refine ⟨.insufficientStock p.name p.stock, ?_, it, List.mem_cons_self it rest, ?_⟩
          · simp only [validateItems, hl]
            rw [if_neg (by simp [hact]), if_pos hstock]
          · simp only [itemError, hl]
            rw [if_neg (by simp [hact]), if_pos hstock]
        · have hbad' : bad ∈ rest := by
            rcases List.mem_cons.mp hmem with heq | hr
            · exfalso
              rw [heq] at hbad
              simp only [badItemB, hl, hact, not_true_eq_false, Bool.not_true,
                Bool.false_or, decide_eq_true_eq] at hbad
              exact hstock hbad
            · exact hr
          obtain ⟨e, herr, wit, hwmem, hwerr⟩ := ih ⟨bad, hbad', hbad⟩
          refine ⟨e, ?_, wit, List.mem_cons_of_mem it hwmem, hwerr⟩
          simp only [validateItems, hl]
          rw [if_neg (by simp [hact]), if_neg hstock, herr]
      · refine ⟨.productUnavailable p.name, ?_, it, List.mem_cons_self it rest, ?_⟩
        · simp only [validateItems, hl]
          rw [if_pos (by simp [hact])]
        · simp only [itemError, hl]
          rw [if_pos (by simp [hact])]

/-- Inversion of a successful checkout: it found the user's cart, validated
every line, and produced exactly the priced order and the written-back
database of the source's success path. -/
theorem createOrder_created_inv (db : DB) (u : Nat) (sa pm : String)
    (o : Order) (db' : DB)
    (h : createOrder db u sa pm = (.created o, db')) :
    ∃ cart ois total,
      findCartByUser db u = some cart ∧
      validateItems (findProduct db) cart.items = .ok (ois, total) ∧
      o = { id := freshId (db.orders.map Order.id), user := u,
            orderItems := ois, shippingAddress := sa, paymentMethod := pm,
            itemsPrice := total, taxPrice := taxPriceOf total,
            shippingPrice := shippingPriceOf total,
            totalPrice := total + taxPriceOf total + shippingPriceOf total,
            status := .pending, isPaid := false, isDelivered := false } ∧
      db' = saveCartItems
              (decrementStocks { db with orders := db.orders ++ [o] } cart.items)
              cart.id [] := by
  cases hfind : findCartByUser db u with
  | none =>
    simp only [createOrder, hfind] at h
    simp [Prod.ext_iff] at h
  | some cart =>
    simp only [createOrder, hfind] at h
    by_cases hemp : cart.items.isEmpty
    · rw [if_pos hemp] at h
      simp [Prod.ext_iff] at h
    · rw [if_neg hemp] at h
      cases hval : validateItems (findProduct db) cart.items with
      | error e =>
        rw [hval] at h
        simp [Prod.ext_iff] at h
      | ok pr =>
        obtain ⟨ois, total⟩ := pr
        rw [hval] at h
        simp only [Prod.mk.injEq, CreateOrderResult.created.injEq] at h
        obtain ⟨ho, hdb⟩ := h
        exact ⟨cart, ois, total, rfl, hval, ho.symm, by rw [← ho]; exact hdb.symm⟩

/-- Inversion of a failed checkout: every failure path of the source returns
before any write, so the database is unchanged. -/
theorem createOrder_failed_inv (db : DB) (u : Nat) (sa pm : String)
    (e : OrderError) (db' : DB)
    (h : createOrder db u sa pm = (.failed e, db')) : db' = db := by
  cases hfind : findCartByUser db u with
  | none =>
    simp only [createOrder, hfind] at h
    simp only [Prod.mk.injEq] at h
    exact h.2.symm
  | some cart =>
    simp only [createOrder, hfind] at h
    by_cases hemp : cart.items.isEmpty
    · rw [if_pos hemp] at h
      simp only [Prod.mk.injEq] at h
      exact h.2.symm
    · rw [if_neg hemp] at h
      cases hval : validateItems (findProduct db) cart.items with
      | error e' =>
        rw [hval] at h
        simp only [Prod.mk.injEq] at h
        exact h.2.symm
      | ok pr =>
        obtain ⟨ois, total⟩ := pr
        rw [hval] at h
        simp [Prod.ext_iff] at h

/-- `find?` on a product id commutes with a map that preserves the id. -/
theorem find?_pid_map (l : List Product) (g : Product → Product)
    (hg : ∀ p, (g p).id = p.id) (pid : Nat) :
    (l.map g).find? (fun p => p.id == pid) =
      (l.find? (fun p => p.id == pid)).map g := by
  induction l with
  | nil => rfl
  | cons p rest ih =>
    show List.find? _ (g p :: rest.map g) = _
    by_cases h : (p.id == pid) = true
    · have hgp : ((g p).id == pid) = true := by rw [hg]; exact h
      simp [List.find?, h, hgp]
    · have hgp : ((g p).id == pid) = false := by
        rw [hg]; exact Bool.of_not_eq_true h
      simp [List.find?, Bool.of_not_eq_true h, hgp, ih]

/-- Product lookup in a repriced database is the repriced lookup. -/
theorem findProduct_reprice (db : DB) (f : Nat → ℚ) (pid : Nat) :
    findProduct (repriceDB db f) pid =
      (findProduct db pid).map fun p => { p with price := f p.id } := by
  exact find?_pid_map db.products (fun p => { p with price := f p.id })
    (fun p => rfl) pid

/-- The checkout validation loop is insensitive to product price edits: only
the cart-line prices enter the produced order lines and the subtotal. -/
theorem validateItems_reprice (lookup : Nat → Option Product) (f : Nat → ℚ) :
    ∀ items : List CartItem,
      validateItems (fun pid => (lookup pid).map fun p => { p with price := f p.id })
        items = validateItems lookup items := by
  intro items
  induction items with
  | nil => rfl
  | cons it rest ih =>
    cases hl : lookup it.product with
    | none => simp only [validateItems, hl, Option.map_none']
    | some p =>
      simp only [validateItems, hl, Option.map_some']
      by_cases hact : p.isActive
      · by_cases hstock : p.stock < (it.quantity : ℤ)
        · simp [hact, hstock]
        · simp [hact, hstock, ih]
      · simp [hact]

/-- The unguarded stock decrement commutes with a price edit. -/
theorem incStock_reprice (db : DB) (f : Nat → ℚ) (pid : Nat) (q : ℕ) :
    incStock (repriceDB db f) pid q = repriceDB (incStock db pid q) f := by
  simp only [incStock, repriceDB, List.map_map]
  refine congrArg (fun l => DB.mk l _ _) ?_
  refine List.map_congr_left fun p _ => ?_
  by_cases hp : p.id = pid <;> simp [Function.comp, hp]

/-- The stock-decrement loop commutes with a price edit. -/
theorem decrementStocks_reprice (f : Nat → ℚ) :
    ∀ (items : List CartItem) (db : DB),
      decrementStocks (repriceDB db f) items =
        repriceDB (decrementStocks db items) f := by
  intro items
  induction items with
  | nil => intro db; rfl
  | cons it rest ih =>
    intro db
    show decrementStocks (incStock (repriceDB db f) it.product it.quantity) rest = _
    rw [incStock_reprice, ih]
    rfl

/-- Updating the `i`-th line touches exactly the `i`-th position. -/
theorem updateAt_getElem (l : List CartItem) (f : CartItem → CartItem) :
    ∀ i : ℕ, (updateAt l i f)[i]? = (l[i]?).map f := by
  induction l with
  | nil => intro i; cases i <;> rfl
  | cons x xs ih =>
    intro i
    cases i with
    | zero => simp [updateAt]
    | succ n =>
      show (x :: updateAt xs n f)[n + 1]? = _
      simp only [List.getElem?_cons_succ]
      exact ih n

/-- Concrete evaluation of the spec's worked checkout example (one line of
price 50, quantity 2, against stock 5). -/
theorem exDB4_checkout_eval :
    createOrder exDB4 1 "addr" "cod" = (.created exOrder4, exDB4') := by
  simp only [createOrder, exDB4, findCartByUser, List.find?, beq_self_eq_true,
    validateItems, findProduct, taxPriceOf, shippingPriceOf, freshId,
    saveCartItems, decrementStocks, incStock, exOrder4, exDB4']
  norm_num

/-! ## Claim theorems -/

/-- C1: the claim says the per-line stock decrement of a successful checkout
is conditional ("decrement by N only if current stock ≥ N, fail otherwise")
and that stock never goes negative.  The source instead issues an unguarded
`$inc` of `-quantity`: on `exDB1` — a cart holding two lines for product 1
while that product's stock is 1 — the checkout succeeds and leaves the stock
at −1, where the claim's conditional decrement (`condDecStock`) would have
refused the second line (current stock 0, requested 1). -/
theorem claim_C1_unguarded_decrement_drives_stock_negative :
    (createOrder exDB1 1 "addr" "cod").1.isCreated = true ∧
    stockOf exDB1 1 = some 1 ∧
    stockOf (createOrder exDB1 1 "addr" "cod").2 1 = some (-1) ∧
    condDecStock 0 1 = none ∧
    condDecStock 1 1 = some 0 := by
  decide

/-- C3: the shipping price computed at checkout is exactly 0 when the items
subtotal strictly exceeds 100, and exactly 10 otherwise; in particular a
subtotal of 100.00 ships at 10 and a subtotal of 100.01 ships free. -/
theorem claim_C3_shipping_threshold :
    (∀ s : ℚ, 100 < s → shippingPriceOf s = 0) ∧
    (∀ s : ℚ, s ≤ 100 → shippingPriceOf s = 10) ∧
    shippingPriceOf 100 = 10 ∧
    shippingPriceOf (10001 / 100) = 0 := by
  refine ⟨?_, ?_, ?_, ?_⟩
  · intro s hs
    exact if_pos hs
  · intro s hs
    exact if_neg (not_lt.mpr hs)
  · norm_num [shippingPriceOf]
  · norm_num [shippingPriceOf]

/-- Witness for C3 at concrete subtotals 150 and 50. -/
theorem claim_C3_shipping_threshold_witness :
    shippingPriceOf 150 = 0 ∧ shippingPriceOf 50 = 10 :=
  ⟨claim_C3_shipping_threshold.1 150 (by norm_num),
   claim_C3_shipping_threshold.2.1 50 (by norm_num)⟩

/-- C6: a checkout against a missing cart or a cart with no line items fails
with the empty-cart error, creates no order, and leaves the database — hence
every product's stock and every cart — untouched. -/
theorem claim_C6_empty_cart_aborts (db : DB) (u : Nat) (sa pm : String)
    (h : findCartByUser db u = none ∨
      ∃ c, findCartByUser db u = some c ∧ c.items = []) :
    createOrder db u sa pm = (.failed .emptyCart, db) := by
  rcases h with h | ⟨c, hc, hitems⟩
  · simp [createOrder, h]
  · simp [createOrder, hc, hitems]

/-- Witness for C6 on the database with one empty cart. -/
theorem claim_C6_empty_cart_aborts_witness :
    (∃ c, findCartByUser exDB6 1 = some c ∧ c.items = []) ∧
    createOrder exDB6 1 "addr" "cod" = (.failed .emptyCart, exDB6) :=
  ⟨by decide,
   claim_C6_empty_cart_aborts exDB6 1 "addr" "cod"
     (Or.inr ⟨{ id := 1, user := 1, items := [] }, by decide, rfl⟩)⟩

/-- C8 counterexample: `updateOrderStatus` never inspects the current
status, so an order already in the `delivered` state is moved straight back
to `pending` — a transition the claim says is never permitted. -/
theorem claim_C8_counterexample_delivered_to_pending :
    exOrder8.status = .delivered ∧
    ((updateOrderStatus exOrder8 "pending").map Order.status).toOption =
      some .pending := by
  decide

/-- C8 amended: only the payment and delivery endpoints carry guards, and
those guards test the `isPaid`/`isDelivered` booleans, not the status:
`updateOrderToDelivered` rejects an already-delivered order and
`updateOrderToPaid` rejects an already-paid one, while `updateOrderStatus`
installs any valid status unconditionally — including transitions out of
`delivered` and `cancelled`. -/
theorem claim_C8_amended_guards :
    (∀ o : Order, o.isDelivered = true →
      updateOrderToDelivered o = .error .alreadyDelivered) ∧
    (∀ o : Order, o.isPaid = true →
      updateOrderToPaid o = .error .alreadyPaid) ∧
    (∀ (o : Order) (s : String) (st : OrderStatus), parseStatus s = some st →
      ∃ o', updateOrderStatus o s = .ok o' ∧ o'.status = st) := by
  refine ⟨?_, ?_, ?_⟩
  · intro o h
    simp [updateOrderToDelivered, h]
  · intro o h
    simp [updateOrderToPaid, h]
  · intro o s st h
    simp only [updateOrderStatus, h]
    by_cases hst : st = OrderStatus.delivered
    · exact ⟨_, rfl, by simp [hst]⟩
    · exact ⟨_, rfl, by simp [hst]⟩

/-- Witness for the amended C8 on a delivered, paid order and on the
concrete `delivered → pending` request. -/
theorem claim_C8_amended_guards_witness :
    updateOrderToDelivered exOrder8 = .error .alreadyDelivered ∧
    updateOrderToPaid exOrder8 = .error .alreadyPaid ∧
    ∃ o', updateOrderStatus exOrder8 "cancelled" = .ok o' ∧
      o'.status = .cancelled :=
  ⟨claim_C8_amended_guards.1 exOrder8 rfl,
   claim_C8_amended_guards.2.1 exOrder8 rfl,
   claim_C8_amended_guards.2.2 exOrder8 "cancelled" .cancelled (by decide)⟩

/-- C10: reading the cart prunes and persists it: the returned cart's lines
are exactly the stored lines that survive the claim's keep-condition (the
product resolves, its stock is nonzero, and its stock is not below the
line's quantity), the pruned list is what the database stores afterwards,
and every returned line passes the source's validity test (product exists,
stock positive, stock at least the quantity). -/
theorem claim_C10_getCart_prunes (db : DB) (u : Nat) :
    ((getCart db u).1).items =
      (cartItemsOf db u).filter (claimKeepB (findProduct db)) ∧
    cartItemsOf (getCart db u).2 u = ((getCart db u).1).items ∧
    ∀ it ∈ ((getCart db u).1).items, validItemB (findProduct db) it = true := by
  have hfun : claimKeepB (findProduct db) = validItemB (findProduct db) :=
    funext (claimKeepB_eq_validItemB _)
  cases hfind : findCartByUser db u with
  | none =>
    have hg : getCart db u =
        ({ id := freshId (db.carts.map Cart.id), user := u, items := [] },
         { db with carts :=
            db.carts ++ [{ id := freshId (db.carts.map Cart.id), user := u, items := [] }] }) := by
      simp only [getCart, hfind]
    refine ⟨?_, ?_, ?_⟩
    · rw [hg]
      simp [cartItemsOf, hfind]
    · rw [hg]
      simp only [cartItemsOf, findCartByUser]
      rw [find?_append_none _ _ _ hfind]
      simp [List.find?]
    · intro it hit
      rw [hg] at hit
      cases hit
  | some cart =>
    by_cases hlen : (cart.items.filter (validItemB (findProduct db))).length =
        cart.items.length
    · have hself := filter_eq_self_of_length _ _ hlen
      have hcart : getCart db u = (cart, db) := by
        simp only [getCart, hfind]
        rw [if_neg (by simp [hlen])]
      refine ⟨?_, ?_, ?_⟩
      · rw [hcart]
        simp only [cartItemsOf, hfind, Option.map_some', Option.getD_some, hfun]
        exact hself.symm
      · rw [hcart]
        simp [cartItemsOf, hfind]
      · intro it hit
        rw [hcart] at hit
        rw [← hself] at hit
        exact List.of_mem_filter hit
    · have hcart : getCart db u =
          ({ cart with items := cart.items.filter (validItemB (findProduct db)) },
           saveCartItems db cart.id
             (cart.items.filter (validItemB (findProduct db)))) := by
        simp only [getCart, hfind]
        rw [if_pos (by simp [hlen])]
      refine ⟨?_, ?_, ?_⟩
      · rw [hcart]
        simp only [cartItemsOf, hfind, Option.map_some', Option.getD_some, hfun]
      · rw [hcart]
        simp only [cartItemsOf, saveCartItems, findCartByUser]
        rw [find?_user_map _ _ (fun c => by by_cases hc : c.id = cart.id <;> simp [hc]) u]
        have : db.carts.find? (fun c => c.user == u) = some cart := hfind
        rw [this]
        simp
      · intro it hit
        rw [hcart] at hit
        exact List.of_mem_filter hit

/-- Witness for C10 on a cart holding an in-stock line, an out-of-stock
line, a short-stocked line, and a line for a missing product: only the
first survives, and the pruned cart is what the database then stores. -/
theorem claim_C10_getCart_prunes_witness :
    ((getCart exDB10 1).1).items =
      (cartItemsOf exDB10 1).filter (claimKeepB (findProduct exDB10)) ∧
    cartItemsOf (getCart exDB10 1).2 1 = ((getCart exDB10 1).1).items ∧
    ((getCart exDB10 1).1).items = [{ product := 1, quantity := 2, price := 1 }] :=
  ⟨(claim_C10_getCart_prunes exDB10 1).1,
   (claim_C10_getCart_prunes exDB10 1).2.1,
   by decide⟩

/-- C2: when any line of the (non-empty) cart references a product that is
missing, inactive, or short of stock, the whole checkout fails with the
validation error the source raises for an offending line — carrying that
product's name (`Unknown` when the product is missing) — no order is
created, and the database, hence every product's stock and the cart, is
returned unchanged. -/
theorem claim_C2_bad_line_aborts_all_or_nothing (db : DB) (u : Nat)
    (sa pm : String) (cart : Cart)
    (hfind : findCartByUser db u = some cart)
    (hbad : ∃ it ∈ cart.items, badItemB (findProduct db) it = true) :
    ∃ e, createOrder db u sa pm = (.failed e, db) ∧
      ∃ it ∈ cart.items, itemError (findProduct db) it = some e := by
  have hne : ¬cart.items.isEmpty = true := by
    obtain ⟨it, hmem, _⟩ := hbad
    cases hl : cart.items with
    | nil => rw [hl] at hmem; cases hmem
    | cons a l => simp [hl]
  obtain ⟨e, herr, wit⟩ := validateItems_error_of_bad (findProduct db) cart.items hbad
  refine ⟨e, ?_, wit⟩
  simp only [createOrder, hfind]
  rw [if_neg hne, herr]

/-- Witness for C2 on the inactive-product database. -/
theorem claim_C2_bad_line_aborts_all_or_nothing_witness :
    findCartByUser exDB2 1 = some exCart2 ∧
    (∃ it ∈ exCart2.items, badItemB (findProduct exDB2) it = true) ∧
    ∃ e, createOrder exDB2 1 "addr" "cod" = (.failed e, exDB2) ∧
      ∃ it ∈ exCart2.items, itemError (findProduct exDB2) it = some e :=
  ⟨by decide, by decide,
   claim_C2_bad_line_aborts_all_or_nothing exDB2 1 "addr" "cod" exCart2
     (by decide) (by decide)⟩

/-- C4: every successfully created order satisfies the pricing equations:
its itemsPrice is the sum of line price × line quantity over its own order
lines, its taxPrice is 10% of itemsPrice, and its totalPrice is
itemsPrice + taxPrice + shippingPrice. -/
theorem claim_C4_order_pricing_equations (db : DB) (u : Nat) (sa pm : String)
    (o : Order) (db' : DB)
    (h : createOrder db u sa pm = (.created o, db')) :
    o.itemsPrice = (o.orderItems.map fun oi => oi.price * (oi.quantity : ℚ)).sum ∧
    o.taxPrice = o.itemsPrice * (1 / 10) ∧
    o.totalPrice = o.itemsPrice + o.taxPrice + o.shippingPrice := by
  obtain ⟨cart, ois, total, hfind, hval, ho, hdb⟩ :=
    createOrder_created_inv db u sa pm o db' h
  obtain ⟨hsum1, hsum2⟩ := validateItems_ok_sums (findProduct db) cart.items ois total hval
  subst ho
  exact ⟨hsum2, rfl, rfl⟩

/-- Witness for C4 on the spec's worked example: one line of price 50 and
quantity 2 yields itemsPrice 100, tax 10, shipping 10, total 120. -/
theorem claim_C4_order_pricing_equations_witness :
    createOrder exDB4 1 "addr" "cod" = (.created exOrder4, exDB4') ∧
    exOrder4.itemsPrice = 100 ∧ exOrder4.taxPrice = 10 ∧
    exOrder4.shippingPrice = 10 ∧ exOrder4.totalPrice = 120 ∧
    (exOrder4.itemsPrice =
        (exOrder4.orderItems.map fun oi => oi.price * (oi.quantity : ℚ)).sum ∧
      exOrder4.taxPrice = exOrder4.itemsPrice * (1 / 10) ∧
      exOrder4.totalPrice =
        exOrder4.itemsPrice + exOrder4.taxPrice + exOrder4.shippingPrice) :=
  ⟨exDB4_checkout_eval, by decide, by decide, by decide, by decide,
   claim_C4_order_pricing_equations exDB4 1 "addr" "cod" exOrder4 exDB4'
     exDB4_checkout_eval⟩

/-- C7: after a successful checkout the originating cart still exists with
the same identity and owner but an empty line-item list; and whenever any
pipeline step fails, the database — the cart included — is returned exactly
as it was, so the cart-clearing step never ran. -/
theorem claim_C7_cart_cleared_only_on_success :
    (∀ (db : DB) (u : Nat) (sa pm : String) (o : Order) (db' : DB),
      createOrder db u sa pm = (.created o, db') →
      ∃ c, findCartByUser db u = some c ∧
        findCartByUser db' u = some { id := c.id, user := c.user, items := [] }) ∧
    (∀ (db : DB) (u : Nat) (sa pm : String) (e : OrderError) (db' : DB),
      createOrder db u sa pm = (.failed e, db') → db' = db) := by
  constructor
  · intro db u sa pm o db' h
    obtain ⟨cart, ois, total, hfind, hval, ho, hdb⟩ :=
      createOrder_created_inv db u sa pm o db' h
    refine ⟨cart, hfind, ?_⟩
    subst hdb
    show (saveCartItems _ cart.id []).carts.find? (fun c => c.user == u) = _
    simp only [saveCartItems]
    rw [decrementStocks_carts]
    show ((db.carts.map fun c =>
        if c.id = cart.id then { c with items := ([] : List CartItem) } else c).find?
        fun c => c.user == u) = _
    rw [find?_user_map _ _ (fun c => by by_cases hc : c.id = cart.id <;> simp [hc]) u]
    have hfind' : db.carts.find? (fun c => c.user == u) = some cart := hfind
    rw [hfind']
    simp
  · intro db u sa pm e db' h
    exact createOrder_failed_inv db u sa pm e db' h

/-- Witness for C7: the successful `exDB4` checkout leaves cart 1 present
and empty, and the failing empty-cart checkout on `exDB6` leaves the
database unchanged. -/
theorem claim_C7_cart_cleared_only_on_success_witness :
    (∃ c, findCartByUser exDB4 1 = some c ∧
      findCartByUser exDB4' 1 = some { id := c.id, user := c.user, items := [] }) ∧
    exDB6 = exDB6 :=
  ⟨claim_C7_cart_cleared_only_on_success.1 exDB4 1 "addr" "cod" exOrder4 exDB4'
     exDB4_checkout_eval,
   claim_C7_cart_cleared_only_on_success.2 exDB6 1 "addr" "cod" .emptyCart exDB6
     (by decide)⟩

/-- Concrete evaluation of a checkout whose subtotal is 19.99. -/
theorem exDB9_checkout_eval :
    createOrder exDB9 1 "addr" "cod" = (.created exOrder9, exDB9') := by
  simp only [createOrder, exDB9, findCartByUser, List.find?, beq_self_eq_true,
    validateItems, findProduct, taxPriceOf, shippingPriceOf, freshId,
    saveCartItems, decrementStocks, incStock, exOrder9, exDB9']
  norm_num

/-- C9 counterexample: the price calculation rounds nowhere.  On a cart
whose single line costs 19.99 the checkout succeeds with
taxPrice = 1.999, which carries three decimal digits — no uniformly applied
2-decimal rounding rule exists. -/
theorem claim_C9_counterexample_three_decimal_tax :
    createOrder exDB9 1 "addr" "cod" = (.created exOrder9, exDB9') ∧
    exOrder9.taxPrice = 1999 / 1000 ∧
    ¬ twoDecimal exOrder9.taxPrice := by
  refine ⟨exDB9_checkout_eval, rfl, ?_⟩
  rintro ⟨n, hn⟩
  have h : (1999 : ℚ) / 1000 * 100 = (n : ℚ) := hn
  have h2 : (1999 : ℚ) = (n : ℚ) * 10 := by
    field_simp at h
    linarith
  have h3 : (1999 : ℤ) = n * 10 := by exact_mod_cast h2
  omega

/-- C9 amended: the four price outputs of a successful checkout are
non-negative whenever the cart's line prices are non-negative, but they are
exact arithmetic results — no rounding to 2 decimal places is applied. -/
theorem claim_C9_amended_nonneg_unrounded (db : DB) (u : Nat) (sa pm : String)
    (o : Order) (db' : DB)
    (h : createOrder db u sa pm = (.created o, db'))
    (hp : ∀ it ∈ cartItemsOf db u, 0 ≤ it.price) :
    0 ≤ o.itemsPrice ∧ 0 ≤ o.taxPrice ∧ 0 ≤ o.shippingPrice ∧
      0 ≤ o.totalPrice := by
  obtain ⟨cart, ois, total, hfind, hval, ho, hdb⟩ :=
    createOrder_created_inv db u sa pm o db' h
  obtain ⟨hsum1, hsum2⟩ :=
    validateItems_ok_sums (findProduct db) cart.items ois total hval
  have hitems : cartItemsOf db u = cart.items := by
    simp [cartItemsOf, hfind]
  have htot : 0 ≤ total := by
    rw [hsum1]
    apply List.sum_nonneg
    intro x hx
    simp only [List.mem_map] at hx
    obtain ⟨it, hit, hxeq⟩ := hx
    subst hxeq
    exact mul_nonneg (hp it (by rw [hitems]; exact hit)) (by positivity)
  have htax : 0 ≤ taxPriceOf total := by
    unfold taxPriceOf
    exact mul_nonneg htot (by norm_num)
  have hship : 0 ≤ shippingPriceOf total := by
    unfold shippingPriceOf
    split <;> norm_num
  subst ho
  exact ⟨htot, htax, hship, add_nonneg (add_nonneg htot htax) hship⟩

/-- Witness for the amended C9 on the 19.99 checkout. -/
theorem claim_C9_amended_nonneg_unrounded_witness :
    0 ≤ exOrder9.itemsPrice ∧ 0 ≤ exOrder9.taxPrice ∧
    0 ≤ exOrder9.shippingPrice ∧ 0 ≤ exOrder9.totalPrice :=
  claim_C9_amended_nonneg_unrounded exDB9 1 "addr" "cod" exOrder9 exDB9'
    exDB9_checkout_eval
    (by norm_num [cartItemsOf, exDB9, findCartByUser, List.find?])

/-- C5 counterexample: the cart line's price is not a fixed add-time
snapshot.  On `exDB5` the line was added at price 50, the product's current
price is 60, and a quantity update (`updateCartItem` to quantity 2)
overwrites the stored price with 60. -/
theorem claim_C5_counterexample_update_refreshes_price :
    (findProduct exDB5 1).map Product.price = some 60 ∧
    cartItemsOf exDB5 1 = [{ product := 1, quantity := 1, price := 50 }] ∧
    ((updateCartItem exDB5 1 1 2).map fun d => cartItemsOf d 1).toOption =
      some [{ product := 1, quantity := 2, price := 60 }] := by
  decide

/-- C5 amended: checkout itself honors the cart-line price — editing every
product's price commutes with `createOrder`, so the created order's totals
and lines are untouched by current product prices — but the stored line
price is not fixed at add time: a successful `updateCartItem` overwrites
the addressed line's price with the product's current price. -/
theorem claim_C5_amended_cart_price_honored_but_refreshed :
    (∀ (db : DB) (f : Nat → ℚ) (u : Nat) (sa pm : String)
        (r : CreateOrderResult) (db' : DB),
      createOrder db u sa pm = (r, db') →
      createOrder (repriceDB db f) u sa pm = (r, repriceDB db' f)) ∧
    (∀ (db : DB) (u pid : Nat) (q : ℕ) (db' : DB) (c : Cart) (i : ℕ),
      updateCartItem db u pid q = .ok db' →
      findCartByUser db u = some c →
      c.items.findIdx? (fun it => it.product == pid) = some i →
      ∃ p, findProduct db pid = some p ∧
        (cartItemsOf db' u)[i]? =
          (c.items[i]?).map fun it =>
            { it with quantity := q, price := p.price }) := by
  constructor
  · intro db f u sa pm r db' h
    have hfind : findCartByUser (repriceDB db f) u = findCartByUser db u := rfl
    have hfp : findProduct (repriceDB db f) =
        fun pid => (findProduct db pid).map fun p => { p with price := f p.id } :=
      funext (findProduct_reprice db f)
    cases hc : findCartByUser db u with
    | none =>
      simp only [createOrder, hc] at h
      simp only [Prod.mk.injEq] at h
      obtain ⟨hr, hdb⟩ := h
      subst hr
      subst hdb
      simp only [createOrder, hfind, hc]
    | some cart =>
      have hval : validateItems (findProduct (repriceDB db f)) cart.items =
          validateItems (findProduct db) cart.items := by
        rw [hfp]
        exact validateItems_reprice (findProduct db) f cart.items
      by_cases hemp : cart.items.isEmpty
      · simp only [createOrder, hc, if_pos hemp] at h
        simp only [Prod.mk.injEq] at h
        obtain ⟨hr, hdb⟩ := h
        subst hr
        subst hdb
        simp only [createOrder, hfind, hc, if_pos hemp]
      · cases hv : validateItems (findProduct db) cart.items with
        | error e =>
          simp only [createOrder, hc, if_neg hemp, hv] at h
          simp only [Prod.mk.injEq] at h
          obtain ⟨hr, hdb⟩ := h
          subst hr
          subst hdb
          simp only [createOrder, hfind, hc, if_neg hemp, hval, hv]
        | ok pr =>
          obtain ⟨ois, total⟩ := pr
          simp only [createOrder, hc, if_neg hemp, hv] at h
          simp only [Prod.mk.injEq] at h
          obtain ⟨hr, hdb⟩ := h
          subst hr
          subst hdb
          simp only [createOrder, hfind, hc, if_neg hemp, hval, hv,
            Prod.mk.injEq]
          refine ⟨rfl, ?_⟩
          rw [show ({ repriceDB db f with
              orders := (repriceDB db f).orders ++
                [{ id := freshId ((repriceDB db f).orders.map Order.id), user := u,
                   orderItems := ois, shippingAddress := sa, paymentMethod := pm,
                   itemsPrice := total, taxPrice := taxPriceOf total,
                   shippingPrice := shippingPriceOf total,
                   totalPrice := total + taxPriceOf total + shippingPriceOf total,
                   status := .pending, isPaid := false, isDelivered := false }] } : DB) =
            repriceDB { db with
              orders := db.orders ++
                [{ id := freshId (db.orders.map Order.id), user := u,
                   orderItems := ois, shippingAddress := sa, paymentMethod := pm,
                   itemsPrice := total, taxPrice := taxPriceOf total,
                   shippingPrice := shippingPriceOf total,
                   totalPrice := total + taxPriceOf total + shippingPriceOf total,
                   status := .pending, isPaid := false, isDelivered := false }] } f
            from rfl]
          rw [decrementStocks_reprice]
          rfl
  · intro db u pid q db' c i h hfind hidx
    cases hp : findProduct db pid with
    | none =>
      simp only [updateCartItem, hfind, hidx, hp] at h
      cases h
    | some p =>
      simp only [updateCartItem, hfind, hidx, hp] at h
      by_cases hs : p.stock < (q : ℤ)
      · rw [if_pos hs] at h
        cases h
      · rw [if_neg hs] at h
        simp only [Except.ok.injEq] at h
        subst h
        refine ⟨p, rfl, ?_⟩
        have hcarts : cartItemsOf
            (saveCartItems db c.id
              (updateAt c.items i fun it =>
                { it with quantity := q, price := p.price })) u =
            updateAt c.items i fun it =>
              { it with quantity := q, price := p.price } := by
          simp only [cartItemsOf, saveCartItems, findCartByUser]
          rw [find?_user_map _ _
            (fun c' => by by_cases hcc : c'.id = c.id <;> simp [hcc]) u]
          have hfind' : db.carts.find? (fun c' => c'.user == u) = some c := hfind
          rw [hfind']
          simp
        rw [hcarts]
        exact updateAt_getElem c.items _ i

/-- Witness for the amended C5: the `exDB4` checkout is unchanged by
zeroing every product price, and the `exDB5` quantity update overwrites the
line's stored price 50 with the product's current price 60. -/
theorem claim_C5_amended_cart_price_honored_but_refreshed_witness :
    createOrder (repriceDB exDB4 zeroPrice) 1 "addr" "cod" =
      (.created exOrder4, repriceDB exDB4' zeroPrice) ∧
    ∃ p, findProduct exDB5 1 = some p ∧
      (cartItemsOf exDB5' 1)[0]? =
        (exCart5.items[0]?).map fun it =>
          { it with quantity := 2, price := p.price } :=
  ⟨claim_C5_amended_cart_price_honored_but_refreshed.1 exDB4 zeroPrice 1
     "addr" "cod" (.created exOrder4) exDB4' exDB4_checkout_eval,
   claim_C5_amended_cart_price_honored_but_refreshed.2 exDB5 1 1 2 exDB5'
     exCart5 0 rfl (by decide) (by decide)⟩

end MvpEcommerce
